import Mathlib

/-!
Shallow embedding of the voting program (`programs/voting-dapp-clean/src/lib.rs`).

Byte strings (Rust `String` / `[u8; N]` buffers) are modelled as `List Nat`;
account public keys (`Pubkey`) as `Nat`; `u64`/`u16`/`u8` values as `Nat`
(with an explicit `% 2 ^ 64` at the one place the code performs `u64`
arithmetic); `i64` timestamps as `Int`.  The host runtime's account store is
modelled as association lists keyed by the derived addresses: a `Poll` lives at
the key derived from `(creator, poll_id)` and a `VoterRecord` at the key
derived from `(poll, voter)`, mirroring the `seeds = [b"poll", creator,
poll_id]` and `seeds = [b"voter", poll, voter]` PDA derivations.
-/

namespace Voting

/-- MAX_QUESTION_LENGTH constant from the source. -/
def MAX_QUESTION_LENGTH : Nat := 200

/-- MAX_OPTION_LENGTH constant from the source. -/
def MAX_OPTION_LENGTH : Nat := 30

/-- MAX_OPTIONS constant from the source. -/
def MAX_OPTIONS : Nat := 4

/-- Modulus of `u64` arithmetic (`poll.votes[i] += 1` is a `u64` addition). -/
def U64_MOD : Nat := 2 ^ 64

/-- The `VotingError` enum of the source (`#[error_code]`). -/
inductive VotingError where
  | InsufficientOptions
  | TooManyOptions
  | QuestionTooLong
  | OptionTooLong
  | InvalidOption
  | AlreadyVoted
  | Unauthorized
deriving DecidableEq, Repr

/-- The `Poll` account.  Fixed-size buffers are lists whose well-formed length
is `MAX_QUESTION_LENGTH` (question), `MAX_OPTIONS` buffers of
`MAX_OPTION_LENGTH` (options), `MAX_OPTIONS` (option_lengths, votes). -/
structure Poll where
  poll_id : Nat
  creator : Nat
  question : List Nat
  question_length : Nat
  options : List (List Nat)
  option_lengths : List Nat
  votes : List Nat
  option_count : Nat
  created_at : Int
deriving DecidableEq, Repr

/-- Poll::LEN from the source: 8-byte discriminator plus all field sizes. -/
def Poll.LEN : Nat :=
  8 + 8 + 32 + MAX_QUESTION_LENGTH + 2 + (MAX_OPTION_LENGTH * MAX_OPTIONS) +
    MAX_OPTIONS + (8 * MAX_OPTIONS) + 1 + 8

/-- The `VoterRecord` account. -/
structure VoterRecord where
  has_voted : Bool
  voted_option : Nat
  voted_at : Int
  voter : Nat
  poll : Nat
deriving DecidableEq, Repr

/-- VoterRecord::LEN from the source. -/
def VoterRecord.LEN : Nat := 8 + 1 + 1 + 8 + 32 + 32

/-- A freshly `init`-allocated account is zero-filled; deserializing it gives
the all-zero record (`has_voted = false`). -/
def VoterRecord.zeroed : VoterRecord :=
  { has_voted := false, voted_option := 0, voted_at := 0, voter := 0, poll := 0 }

/-- The `VoteCast` event (`#[event]`). -/
structure VoteCast where
  poll : Nat
  voter : Nat
  option_index : Nat
  timestamp : Int
deriving DecidableEq, Repr

/-- Writing `s` into the front of fixed buffer `buf`
(`buf[..s.len()].copy_from_slice(s)`). -/
def writeBuf (buf : List Nat) (s : List Nat) : List Nat :=
  s ++ buf.drop s.length

/-- The zero-filled question buffer of a fresh `Poll` account. -/
def zeroQuestionBuf : List Nat := List.replicate MAX_QUESTION_LENGTH 0

/-- The zero-filled option buffer of one slot of a fresh `Poll` account. -/
def zeroOptionBuf : List Nat := List.replicate MAX_OPTION_LENGTH 0

/-- The `Poll` record written by the body of `create_poll` into the zero-fresh
account: direct field assignments plus the question / option copy loops.  The
option loop writes slot `i` for `i < options.len()` and leaves the remaining
slots zeroed; `votes` keeps its zero initialization. -/
def initPoll (creator : Nat) (now : Int) (poll_id : Nat)
    (question : List Nat) (options : List (List Nat)) : Poll :=
  { poll_id := poll_id
    creator := creator
    created_at := now
    option_count := options.length
    question := writeBuf zeroQuestionBuf question
    question_length := question.length
    options := (List.range MAX_OPTIONS).map (fun i =>
      if i < options.length then writeBuf zeroOptionBuf (options.getD i [])
      else zeroOptionBuf)
    option_lengths := (List.range MAX_OPTIONS).map (fun i =>
      if i < options.length then (options.getD i []).length else 0)
    votes := List.replicate MAX_OPTIONS 0 }

/-- Handler `create_poll`: validation in source order, then field
initialization of the zero-fresh `Poll` account. -/
def create_poll (creator : Nat) (now : Int) (poll_id : Nat)
    (question : List Nat) (options : List (List Nat)) : Except VotingError Poll :=
  if question.length ≤ MAX_QUESTION_LENGTH then
    if 2 ≤ options.length then
      if options.length ≤ MAX_OPTIONS then
        if options.all (fun o => decide (o.length ≤ MAX_OPTION_LENGTH)) then
          Except.ok (initPoll creator now poll_id question options)
        else Except.error VotingError.OptionTooLong
      else Except.error VotingError.TooManyOptions
    else Except.error VotingError.InsufficientOptions
  else Except.error VotingError.QuestionTooLong

/-- Handler `cast_vote`: bound check, double-vote check, tally increment
(`u64` addition), `VoterRecord` fields, emitted `VoteCast` event. -/
def cast_vote (poll : Poll) (voter_record : VoterRecord)
    (pollKey voterKey : Nat) (now : Int) (option_index : Nat) :
    Except VotingError (Poll × VoterRecord × VoteCast) :=
  if option_index < poll.option_count then
    if voter_record.has_voted then Except.error VotingError.AlreadyVoted
    else
      Except.ok
        ({ poll with votes :=
            poll.votes.set option_index ((poll.votes.getD option_index 0 + 1) % U64_MOD) },
         { has_voted := true
           voted_option := option_index
           voted_at := now
           voter := voterKey
           poll := pollKey },
         { poll := pollKey
           voter := voterKey
           option_index := option_index
           timestamp := now })
  else Except.error VotingError.InvalidOption

/-- Poll::get_question: decode the valid prefix of the question buffer
(`from_utf8_lossy` is the identity on the valid UTF-8 written at creation). -/
def Poll.get_question (p : Poll) : List Nat :=
  p.question.take p.question_length

/-- Poll::get_option: `None` for an index at or past `option_count`, otherwise
the decoded valid prefix of that option slot. -/
def Poll.get_option (p : Poll) (index : Nat) : Option (List Nat) :=
  if p.option_count ≤ index then none
  else some ((p.options.getD index []).take (p.option_lengths.getD index 0))

/-- Poll::get_all_options: loop `i in 0..option_count`, pushing each
`Some` result of `get_option` in order. -/
def Poll.get_all_options (p : Poll) : List (List Nat) :=
  (List.range p.option_count).filterMap p.get_option

/-- Association-list lookup for the account store. -/
def alookup {α β : Type} [DecidableEq α] : List (α × β) → α → Option β
  | [], _ => none
  | (k, v) :: rest, key => if k = key then some v else alookup rest key

/-- Association-list write: replace the entry at the key, or append it. -/
def aset {α β : Type} [DecidableEq α] : List (α × β) → α → β → List (α × β)
  | [], key, v => [(key, v)]
  | (k, w) :: rest, key, v =>
      if k = key then (key, v) :: rest else (k, w) :: aset rest key v

/-- Number of store entries sitting at a given key. -/
def countKey {α β : Type} [DecidableEq α] (l : List (α × β)) (k : α) : Nat :=
  (l.filter (fun e => decide (e.1 = k))).length

/-- Errors surfaced by the host runtime around the program handlers. -/
inductive TxError where
  | programError (e : VotingError)
  | accountNotFound
  | accountInUse
deriving DecidableEq, Repr

/-- The derived Poll address: a pure injective function of
`(creator, poll_id)` (PDA seeds `[b"poll", creator, poll_id]`). -/
def derivePollKey (creator poll_id : Nat) : Nat := Nat.pair creator poll_id

/-- On-chain state: the account store (polls keyed by their derived address,
voter records keyed by the `(poll, voter)`-derived address) and the event log. -/
structure Chain where
  polls : List (Nat × Poll)
  voterRecords : List ((Nat × Nat) × VoterRecord)
  events : List VoteCast
deriving DecidableEq, Repr

/-- The empty chain. -/
def Chain.empty : Chain := { polls := [], voterRecords := [], events := [] }

/-- `create_poll` transaction: `init` fails if the derived poll address is in
use, otherwise the handler initializes the fresh account. -/
def createPollSys (c : Chain) (creator : Nat) (now : Int) (poll_id : Nat)
    (question : List Nat) (options : List (List Nat)) : Except TxError Chain :=
  match alookup c.polls (derivePollKey creator poll_id) with
  | some _ => Except.error TxError.accountInUse
  | none =>
    match create_poll creator now poll_id question options with
    | Except.error e => Except.error (TxError.programError e)
    | Except.ok p =>
        Except.ok { c with polls := aset c.polls (derivePollKey creator poll_id) p }

/-- `cast_vote` transaction: resolve the poll account, give the handler the
voter record at the `(poll, voter)`-derived address (zero-fresh when absent —
any stored record has `has_voted = true`, so the handler's `AlreadyVoted`
guard rejects exactly the existing-record case), and on success commit the
tally update, the voter record and the event atomically. -/
def castVoteSys (c : Chain) (pollKey voterKey : Nat) (now : Int)
    (option_index : Nat) : Except TxError Chain :=
  match alookup c.polls pollKey with
  | none => Except.error TxError.accountNotFound
  | some poll =>
    match cast_vote poll ((alookup c.voterRecords (pollKey, voterKey)).getD VoterRecord.zeroed)
        pollKey voterKey now option_index with
    | Except.error e => Except.error (TxError.programError e)
    | Except.ok (p, vr, ev) =>
        Except.ok { polls := aset c.polls pollKey p
                    voterRecords := aset c.voterRecords (pollKey, voterKey) vr
                    events := c.events ++ [ev] }

/-- Chain states reachable from genesis by successful transactions. -/
inductive Reachable : Chain → Prop
  | init : Reachable Chain.empty
  | createPoll {c c' : Chain} {creator : Nat} {now : Int} {poll_id : Nat}
      {question : List Nat} {options : List (List Nat)} :
      Reachable c →
      createPollSys c creator now poll_id question options = Except.ok c' →
      Reachable c'
  | castVote {c c' : Chain} {pollKey voterKey : Nat} {now : Int} {option_index : Nat} :
      Reachable c →
      castVoteSys c pollKey voterKey now option_index = Except.ok c' →
      Reachable c'

/-- One successful transaction of either kind. -/
def Step (c c' : Chain) : Prop :=
  (∃ creator now poll_id question options,
      createPollSys c creator now poll_id question options = Except.ok c') ∨
  (∃ pollKey voterKey now option_index,
      castVoteSys c pollKey voterKey now option_index = Except.ok c')

/-- The data-model invariant of a `Poll` record (spec §3). -/
def PollInv (p : Poll) : Prop :=
  2 ≤ p.option_count ∧ p.option_count ≤ MAX_OPTIONS ∧
    p.question_length ≤ MAX_QUESTION_LENGTH ∧
    ∀ i, i < p.option_count → p.option_lengths.getD i 0 ≤ MAX_OPTION_LENGTH

/-- Key distinctness of an account store: no entry shadows a later one. -/
def keysNodup {α β : Type} [DecidableEq α] : List (α × β) → Prop
  | [] => True
  | (k, _) :: rest => alookup rest k = none ∧ keysNodup rest

theorem alookup_aset_self {α β : Type} [DecidableEq α]
    (l : List (α × β)) (k : α) (v : β) : alookup (aset l k v) k = some v := by
  induction l with
  | nil => simp [aset, alookup]
  | cons e rest ih =>
    obtain ⟨k₂, w⟩ := e
    by_cases h : k₂ = k
    · simp [aset, h, alookup]
    · simp [aset, h, alookup, ih]

theorem alookup_aset_ne {α β : Type} [DecidableEq α]
    (l : List (α × β)) {k k₂ : α} (v : β) (h : k ≠ k₂) :
    alookup (aset l k v) k₂ = alookup l k₂ := by
  induction l with
  | nil => simp [aset, alookup, h]
  | cons e rest ih =>
    obtain ⟨k₃, w⟩ := e
    by_cases h₃ : k₃ = k
    · subst h₃
      simp [aset, alookup, h]
    · by_cases h₄ : k₃ = k₂
      · subst h₄
        simp [aset, alookup, h₃]
      · simp [aset, alookup, h₃, h₄, ih]

theorem keysNodup_aset {α β : Type} [DecidableEq α]
    {l : List (α × β)} (k : α) (v : β)
    (h : keysNodup l) : keysNodup (aset l k v) := by
  induction l with
  | nil => simp [keysNodup, aset, alookup]
  | cons e rest ih =>
    obtain ⟨k₂, w⟩ := e
    obtain ⟨h₁, h₂⟩ := h
    by_cases hk : k₂ = k
    · subst hk
      simpa [aset, keysNodup] using ⟨h₁, h₂⟩
    · have hnone : alookup (aset rest k v) k₂ = none := by
        rw [alookup_aset_ne rest v (fun he => hk he.symm)]
        exact h₁
      simpa [aset, hk, keysNodup] using ⟨hnone, ih h₂⟩

theorem countKey_eq_zero {α β : Type} [DecidableEq α]
    {l : List (α × β)} {k : α} (h : alookup l k = none) : countKey l k = 0 := by
  induction l with
  | nil => rfl
  | cons e rest ih =>
    obtain ⟨k₂, w⟩ := e
    by_cases hk : k₂ = k
    · simp [alookup, hk] at h
    · simp [alookup, hk] at h
      have := ih h
      simpa [countKey, List.filter_cons, hk] using this

theorem countKey_le_one {α β : Type} [DecidableEq α]
    {l : List (α × β)} (h : keysNodup l) (k : α) : countKey l k ≤ 1 := by
  induction l with
  | nil => simp [countKey]
  | cons e rest ih =>
    obtain ⟨k₂, w⟩ := e
    obtain ⟨h₁, h₂⟩ := h
    by_cases hk : k₂ = k
    · have hz : countKey rest k = 0 := countKey_eq_zero (hk ▸ h₁)
      simp only [countKey, List.filter_cons] at hz ⊢
      have hd : decide ((k₂, w).1 = k) = true := by simp [hk]
      rw [hd]
      simp [hz]
    · have := ih h₂
      simpa [countKey, List.filter_cons, hk] using this

theorem exists_alookup_aset {α β : Type} [DecidableEq α]
    (l : List (α × β)) (k k₂ : α) (v : β) (h : ∃ w, alookup l k₂ = some w) :
    ∃ w, alookup (aset l k v) k₂ = some w := by
  by_cases hk : k = k₂
  · subst hk
    exact ⟨v, alookup_aset_self l k v⟩
  · rw [alookup_aset_ne l v hk]
    exact h

theorem create_poll_ok {creator poll_id : Nat} {now : Int} {question : List Nat}
    {options : List (List Nat)}
    (h₁ : question.length ≤ MAX_QUESTION_LENGTH) (h₂ : 2 ≤ options.length)
    (h₃ : options.length ≤ MAX_OPTIONS)
    (h₄ : ∀ o ∈ options, o.length ≤ MAX_OPTION_LENGTH) :
    create_poll creator now poll_id question options =
      Except.ok (initPoll creator now poll_id question options) := by
  have hall : options.all (fun o => decide (o.length ≤ MAX_OPTION_LENGTH)) = true := by
    rw [List.all_eq_true]
    intro o ho
    simpa using h₄ o ho
  simp [create_poll, h₁, h₂, h₃, hall]

theorem create_poll_ok_inv {creator poll_id : Nat} {now : Int} {question : List Nat}
    {options : List (List Nat)} {p : Poll}
    (h : create_poll creator now poll_id question options = Except.ok p) :
    question.length ≤ MAX_QUESTION_LENGTH ∧ 2 ≤ options.length ∧
      options.length ≤ MAX_OPTIONS ∧ (∀ o ∈ options, o.length ≤ MAX_OPTION_LENGTH) ∧
      p = initPoll creator now poll_id question options := by
  unfold create_poll at h
  by_cases h₁ : question.length ≤ MAX_QUESTION_LENGTH
  · by_cases h₂ : 2 ≤ options.length
    · by_cases h₃ : options.length ≤ MAX_OPTIONS
      · by_cases h₄ : options.all (fun o => decide (o.length ≤ MAX_OPTION_LENGTH)) = true
        · simp [h₁, h₂, h₃, h₄] at h
          refine ⟨h₁, h₂, h₃, ?_, h.symm⟩
          intro o ho
          simpa using List.all_eq_true.mp h₄ o ho
        · simp [h₁, h₂, h₃, h₄] at h
      · simp [h₁, h₂, h₃] at h
    · simp [h₁, h₂] at h
  · simp [h₁] at h

theorem cast_vote_ok_inv {poll p : Poll} {vr r : VoterRecord} {ev : VoteCast}
    {pollKey voterKey option_index : Nat} {now : Int}
    (h : cast_vote poll vr pollKey voterKey now option_index = Except.ok (p, r, ev)) :
    option_index < poll.option_count ∧ vr.has_voted = false ∧
      p = { poll with votes := poll.votes.set option_index ((poll.votes.getD option_index 0 + 1) % U64_MOD) } ∧
      r = { has_voted := true, voted_option := option_index, voted_at := now,
            voter := voterKey, poll := pollKey } ∧
      ev = { poll := pollKey, voter := voterKey, option_index := option_index,
             timestamp := now } := by
  unfold cast_vote at h
  by_cases h₁ : option_index < poll.option_count
  · by_cases h₂ : vr.has_voted
    · simp [h₁, h₂] at h
    · simp [h₁, h₂] at h
      refine ⟨h₁, by simpa using h₂, ?_, h.2.1.symm, h.2.2.symm⟩
      rw [← h.1]
      simp [List.getD]
  · simp [h₁] at h

theorem cast_vote_invalid {poll : Poll} {vr : VoterRecord}
    {pollKey voterKey option_index : Nat} {now : Int}
    (h : poll.option_count ≤ option_index) :
    cast_vote poll vr pollKey voterKey now option_index =
      Except.error VotingError.InvalidOption := by
  simp [cast_vote, Nat.not_lt.mpr h]

theorem cast_vote_already {poll : Poll} {vr : VoterRecord}
    {pollKey voterKey option_index : Nat} {now : Int}
    (h₁ : option_index < poll.option_count) (h₂ : vr.has_voted = true) :
    cast_vote poll vr pollKey voterKey now option_index =
      Except.error VotingError.AlreadyVoted := by
  simp [cast_vote, h₁, h₂]

theorem createPollSys_ok_inv {c c' : Chain} {creator poll_id : Nat} {now : Int}
    {question : List Nat} {options : List (List Nat)}
    (h : createPollSys c creator now poll_id question options = Except.ok c') :
    alookup c.polls (derivePollKey creator poll_id) = none ∧
    ∃ p, create_poll creator now poll_id question options = Except.ok p ∧
      c' = { c with polls := aset c.polls (derivePollKey creator poll_id) p } := by
  unfold createPollSys at h
  cases hp : alookup c.polls (derivePollKey creator poll_id) with
  | some q => rw [hp] at h; simp at h
  | none =>
    rw [hp] at h
    cases hc : create_poll creator now poll_id question options with
    | error e => rw [hc] at h; simp at h
    | ok p =>
      rw [hc] at h
      simp at h
      exact ⟨rfl, p, rfl, h.symm⟩

theorem castVoteSys_ok_inv {c c' : Chain} {pollKey voterKey option_index : Nat} {now : Int}
    (h : castVoteSys c pollKey voterKey now option_index = Except.ok c') :
    ∃ poll p r ev,
      alookup c.polls pollKey = some poll ∧
      cast_vote poll ((alookup c.voterRecords (pollKey, voterKey)).getD VoterRecord.zeroed)
        pollKey voterKey now option_index = Except.ok (p, r, ev) ∧
      c' = { polls := aset c.polls pollKey p
             voterRecords := aset c.voterRecords (pollKey, voterKey) r
             events := c.events ++ [ev] } := by
  unfold castVoteSys at h
  split at h
  next hp => exact absurd h (by simp)
  next poll hp =>
    split at h
    next e hc => exact absurd h (by simp)
    next p r ev hc =>
      simp at h
      exact ⟨poll, p, r, ev, hp, hc, h.symm⟩

/-- The store invariant maintained by the two transactions: keys are distinct,
every stored voter record is marked voted, and every voter record points at an
existing poll account. -/
def ChainInv (c : Chain) : Prop :=
  keysNodup c.polls ∧ keysNodup c.voterRecords ∧
    (∀ k r, alookup c.voterRecords k = some r → r.has_voted = true) ∧
    (∀ k r, alookup c.voterRecords k = some r → ∃ p, alookup c.polls k.1 = some p)

theorem chainInv_empty : ChainInv Chain.empty := by
  refine ⟨trivial, trivial, ?_, ?_⟩ <;> intro k r h <;> simp [Chain.empty, alookup] at h

theorem chainInv_createPollSys {c c' : Chain} {creator poll_id : Nat} {now : Int}
    {question : List Nat} {options : List (List Nat)}
    (hinv : ChainInv c)
    (h : createPollSys c creator now poll_id question options = Except.ok c') :
    ChainInv c' := by
  obtain ⟨hfresh, p, hcp, hc'⟩ := createPollSys_ok_inv h
  subst hc'
  refine ⟨keysNodup_aset _ _ hinv.1, hinv.2.1, hinv.2.2.1, ?_⟩
  intro k r hr
  exact exists_alookup_aset _ _ _ _ (hinv.2.2.2 k r hr)

theorem chainInv_castVoteSys {c c' : Chain} {pollKey voterKey option_index : Nat} {now : Int}
    (hinv : ChainInv c)
    (h : castVoteSys c pollKey voterKey now option_index = Except.ok c') :
    ChainInv c' := by
  obtain ⟨poll, p, r, ev, hp, hc, hc'⟩ := castVoteSys_ok_inv h
  obtain ⟨hidx, hnv, hpeq, hreq, heveq⟩ := cast_vote_ok_inv hc
  subst hc'
  refine ⟨keysNodup_aset _ _ hinv.1, keysNodup_aset _ _ hinv.2.1, ?_, ?_⟩
  · intro k q hq
    by_cases hk : (pollKey, voterKey) = k
    · rw [← hk, alookup_aset_self] at hq
      cases hq
      rw [hreq]
    · rw [alookup_aset_ne _ _ hk] at hq
      exact hinv.2.2.1 k q hq
  · intro k q hq
    by_cases hk : (pollKey, voterKey) = k
    · subst hk
      exact exists_alookup_aset _ _ _ _ ⟨poll, hp⟩
    · rw [alookup_aset_ne _ _ hk] at hq
      exact exists_alookup_aset _ _ _ _ (hinv.2.2.2 k q hq)

theorem reachable_chainInv {c : Chain} (h : Reachable c) : ChainInv c := by
  induction h with
  | init => exact chainInv_empty
  | createPoll _ hstep ih => exact chainInv_createPollSys ih hstep
  | castVote _ hstep ih => exact chainInv_castVoteSys ih hstep

theorem voterRecord_none_of_poll_none {c : Chain} (hinv : ChainInv c)
    {pk vk : Nat} (h : alookup c.polls pk = none) :
    alookup c.voterRecords (pk, vk) = none := by
  cases hr : alookup c.voterRecords (pk, vk) with
  | none => rfl
  | some r =>
    obtain ⟨p, hp⟩ := hinv.2.2.2 (pk, vk) r hr
    rw [h] at hp
    cases hp

theorem initPoll_get_question {creator poll_id : Nat} {now : Int} {question : List Nat}
    {options : List (List Nat)} :
    (initPoll creator now poll_id question options).get_question = question := by
  show (writeBuf zeroQuestionBuf question).take question.length = question
  unfold writeBuf
  exact List.take_left question _

theorem initPoll_get_option {creator poll_id : Nat} {now : Int} {question : List Nat}
    {options : List (List Nat)} (h₄ : options.length ≤ MAX_OPTIONS)
    {i : Nat} (hi : i < options.length) :
    (initPoll creator now poll_id question options).get_option i =
      some (options.getD i []) := by
  have hi4 : i < MAX_OPTIONS := lt_of_lt_of_le hi h₄
  simp [initPoll, Poll.get_option, Nat.not_le.mpr hi, List.getD, List.getElem?_map,
    List.getElem?_range hi4, hi, writeBuf, List.take_left]

theorem create_poll_question_too_long {creator poll_id : Nat} {now : Int}
    {question : List Nat} {options : List (List Nat)}
    (h : MAX_QUESTION_LENGTH < question.length) :
    create_poll creator now poll_id question options =
      Except.error VotingError.QuestionTooLong := by
  simp [create_poll, Nat.not_le.mpr h]

theorem create_poll_insufficient {creator poll_id : Nat} {now : Int}
    {question : List Nat} {options : List (List Nat)}
    (h₁ : question.length ≤ MAX_QUESTION_LENGTH) (h₂ : options.length < 2) :
    create_poll creator now poll_id question options =
      Except.error VotingError.InsufficientOptions := by
  simp [create_poll, h₁, Nat.not_le.mpr h₂]

theorem create_poll_too_many {creator poll_id : Nat} {now : Int}
    {question : List Nat} {options : List (List Nat)}
    (h₁ : question.length ≤ MAX_QUESTION_LENGTH) (h₂ : 2 ≤ options.length)
    (h₃ : MAX_OPTIONS < options.length) :
    create_poll creator now poll_id question options =
      Except.error VotingError.TooManyOptions := by
  simp [create_poll, h₁, h₂, Nat.not_le.mpr h₃]

theorem create_poll_option_too_long {creator poll_id : Nat} {now : Int}
    {question : List Nat} {options : List (List Nat)}
    (h₁ : question.length ≤ MAX_QUESTION_LENGTH) (h₂ : 2 ≤ options.length)
    (h₃ : options.length ≤ MAX_OPTIONS) (h₄ : ∃ o ∈ options, MAX_OPTION_LENGTH < o.length) :
    create_poll creator now poll_id question options =
      Except.error VotingError.OptionTooLong := by
  have hall : options.all (fun o => decide (o.length ≤ MAX_OPTION_LENGTH)) = false := by
    rw [List.all_eq_false]
    obtain ⟨o, ho, hlen⟩ := h₄
    exact ⟨o, ho, by simpa using Nat.not_le.mpr hlen⟩
  simp [create_poll, h₁, h₂, h₃, hall]

/-- C9: the persisted record payload sizes equal the declared fixed layouts:
`Poll::LEN` is an 8-byte discriminator plus 407 bytes of payload,
`VoterRecord::LEN` is an 8-byte discriminator plus 74 bytes of payload, and
the options region is `30 * 4 = 120` bytes. -/
theorem claim9_record_sizes :
    Poll.LEN = 8 + 407 ∧ VoterRecord.LEN = 8 + 74 ∧
      MAX_OPTION_LENGTH * MAX_OPTIONS = 120 := by
  decide

/-- C2: round-trip of the text packing: for every question of at most 200
bytes and every option list of 2 to 4 options of at most 30 bytes each,
`create_poll` succeeds and the resulting poll decodes the question and every
option back unchanged. -/
theorem claim2_pack_roundtrip (creator : Nat) (now : Int) (poll_id : Nat)
    (question : List Nat) (options : List (List Nat))
    (hq : question.length ≤ MAX_QUESTION_LENGTH)
    (h₂ : 2 ≤ options.length) (h₄ : options.length ≤ MAX_OPTIONS)
    (ho : ∀ o ∈ options, o.length ≤ MAX_OPTION_LENGTH) :
    ∃ p, create_poll creator now poll_id question options = Except.ok p ∧
      p.get_question = question ∧
      ∀ i, i < options.length → p.get_option i = some (options.getD i []) :=
  ⟨initPoll creator now poll_id question options, create_poll_ok hq h₂ h₄ ho,
    initPoll_get_question, fun _ hi => initPoll_get_option h₄ hi⟩

/-- Witness for C2 at a concrete creation. -/
theorem claim2_pack_roundtrip_witness :
    ∃ p, create_poll 7 100 42 [1, 2, 3] [[10], [20, 21]] = Except.ok p ∧
      p.get_question = [1, 2, 3] ∧
      ∀ i, i < ([[10], [20, 21]] : List (List Nat)).length →
        p.get_option i = some ([[10], [20, 21]].getD i []) :=
  claim2_pack_roundtrip 7 100 42 [1, 2, 3] [[10], [20, 21]]
    (by decide) (by decide) (by decide) (by decide)

/-- C3: `create_poll` validates in the stated order and raises exactly the
named error for each violated condition: QuestionTooLong first, then
InsufficientOptions, then TooManyOptions, then OptionTooLong; it succeeds
exactly when no condition is violated. -/
theorem claim3_validation_order (creator : Nat) (now : Int) (poll_id : Nat)
    (question : List Nat) (options : List (List Nat)) :
    (create_poll creator now poll_id question options =
        Except.error VotingError.QuestionTooLong ↔
      MAX_QUESTION_LENGTH < question.length) ∧
    (create_poll creator now poll_id question options =
        Except.error VotingError.InsufficientOptions ↔
      question.length ≤ MAX_QUESTION_LENGTH ∧ options.length < 2) ∧
    (create_poll creator now poll_id question options =
        Except.error VotingError.TooManyOptions ↔
      question.length ≤ MAX_QUESTION_LENGTH ∧ 2 ≤ options.length ∧
        MAX_OPTIONS < options.length) ∧
    (create_poll creator now poll_id question options =
        Except.error VotingError.OptionTooLong ↔
      question.length ≤ MAX_QUESTION_LENGTH ∧ 2 ≤ options.length ∧
        options.length ≤ MAX_OPTIONS ∧ ∃ o ∈ options, MAX_OPTION_LENGTH < o.length) ∧
    ((∃ p, create_poll creator now poll_id question options = Except.ok p) ↔
      question.length ≤ MAX_QUESTION_LENGTH ∧ 2 ≤ options.length ∧
        options.length ≤ MAX_OPTIONS ∧ ∀ o ∈ options, o.length ≤ MAX_OPTION_LENGTH) := by
  by_cases h₁ : question.length ≤ MAX_QUESTION_LENGTH
  · by_cases h₂ : 2 ≤ options.length
    · by_cases h₃ : options.length ≤ MAX_OPTIONS
      · by_cases hx : ∀ o ∈ options, o.length ≤ MAX_OPTION_LENGTH
        · have heq := @create_poll_ok creator poll_id now question options h₁ h₂ h₃ hx
          have hno : ¬ ∃ o ∈ options, MAX_OPTION_LENGTH < o.length := by
            rintro ⟨o, ho, hlen⟩
            exact Nat.not_le.mpr hlen (hx o ho)
          refine ⟨?_, ?_, ?_, ?_, ?_⟩
          · simp [heq, Nat.not_lt.mpr h₁]
          · simp [heq, Nat.not_lt.mpr h₂]
          · simp [heq, Nat.not_lt.mpr h₃]
          · simp [heq, hno]
          · exact iff_of_true ⟨_, heq⟩ ⟨h₁, h₂, h₃, hx⟩
        · have hex : ∃ o ∈ options, MAX_OPTION_LENGTH < o.length := by
            push_neg at hx
            simpa [Nat.not_le] using hx
          have heq := @create_poll_option_too_long creator poll_id now question options
            h₁ h₂ h₃ hex
          simp [heq, Nat.not_lt.mpr h₁, Nat.not_lt.mpr h₃, Nat.not_lt.mpr h₂, h₁, h₂, h₃,
            hex, hx]
      · have heq := @create_poll_too_many creator poll_id now question options h₁ h₂
          (Nat.not_le.mp h₃)
        simp [heq, Nat.not_lt.mpr h₁, Nat.not_lt.mpr h₂, h₁, h₂, h₃, Nat.not_le.mp h₃]
    · have heq := @create_poll_insufficient creator poll_id now question options h₁
        (Nat.not_le.mp h₂)
      simp [heq, Nat.not_lt.mpr h₁, h₁, h₂, Nat.not_le.mp h₂]
  · have heq := @create_poll_question_too_long creator poll_id now question options
      (Nat.not_le.mp h₁)
    simp [heq, Nat.not_le.mp h₁, h₁]

set_option maxRecDepth 4096 in
/-- Witness for C3 at the boundary: exactly 200-byte question, exactly 30-byte
options, option counts 2 and 4 succeed, and each single violation raises its
named error. -/
theorem claim3_validation_order_witness :
    (∃ p, create_poll 0 0 0 (List.replicate 200 65)
        [List.replicate 30 66, List.replicate 30 67] = Except.ok p) ∧
    (∃ p, create_poll 0 0 0 [] [[1], [2], [3], [4]] = Except.ok p) ∧
    create_poll 0 0 0 (List.replicate 201 65) [[1], [2]] =
      Except.error VotingError.QuestionTooLong ∧
    create_poll 0 0 0 [] [[1]] = Except.error VotingError.InsufficientOptions ∧
    create_poll 0 0 0 [] [[1], [2], [3], [4], [5]] =
      Except.error VotingError.TooManyOptions ∧
    create_poll 0 0 0 [] [[1], List.replicate 31 66] =
      Except.error VotingError.OptionTooLong := by
  refine ⟨?_, ?_, ?_, ?_, ?_, ?_⟩
  · exact (claim3_validation_order 0 0 0 (List.replicate 200 65)
      [List.replicate 30 66, List.replicate 30 67]).2.2.2.2.mpr (by decide)
  · exact (claim3_validation_order 0 0 0 [] [[1], [2], [3], [4]]).2.2.2.2.mpr (by decide)
  · exact (claim3_validation_order 0 0 0 (List.replicate 201 65) [[1], [2]]).1.mpr (by decide)
  · exact (claim3_validation_order 0 0 0 [] [[1]]).2.1.mpr (by decide)
  · exact (claim3_validation_order 0 0 0 [] [[1], [2], [3], [4], [5]]).2.2.1.mpr (by decide)
  · exact (claim3_validation_order 0 0 0 [] [[1], List.replicate 31 66]).2.2.2.1.mpr
      (by decide)

theorem getD_replicate_zero (n i : Nat) : (List.replicate n 0).getD i 0 = 0 := by
  rcases Nat.lt_or_ge i n with h | h
  · simp [List.getD, List.getElem?_replicate, h]
  · simp [List.getD, List.getElem?_replicate, Nat.not_lt.mpr h]

/-- C6: a successful `create_poll` populates every field as documented:
the supplied id, the caller as creator, the current time, the option count,
the exact byte lengths, and all-zero tallies. -/
theorem claim6_create_poll_fields (creator : Nat) (now : Int) (poll_id : Nat)
    (question : List Nat) (options : List (List Nat)) (p : Poll)
    (h : create_poll creator now poll_id question options = Except.ok p) :
    p.poll_id = poll_id ∧ p.creator = creator ∧ p.created_at = now ∧
      p.option_count = options.length ∧ p.question_length = question.length ∧
      (∀ i, i < options.length →
        p.option_lengths.getD i 0 = (options.getD i []).length) ∧
      (∀ i, p.votes.getD i 0 = 0) := by
  obtain ⟨h₁, h₂, h₃, h₄, hp⟩ := create_poll_ok_inv h
  subst hp
  refine ⟨rfl, rfl, rfl, rfl, rfl, ?_, ?_⟩
  · intro i hi
    have hi4 : i < MAX_OPTIONS := lt_of_lt_of_le hi h₃
    simp [initPoll, List.getD, List.getElem?_map, List.getElem?_range hi4, hi]
  · intro i
    exact getD_replicate_zero MAX_OPTIONS i

/-- Witness for C6 at a concrete creation. -/
theorem claim6_create_poll_fields_witness :
    ∃ p, create_poll 7 100 42 [1, 2, 3] [[10], [20, 21]] = Except.ok p ∧
      p.poll_id = 42 ∧ p.creator = 7 ∧ p.created_at = 100 ∧ p.option_count = 2 ∧
      p.question_length = 3 ∧ p.option_lengths.getD 1 0 = 2 ∧ p.votes.getD 0 0 = 0 := by
  have heq : create_poll 7 100 42 [1, 2, 3] [[10], [20, 21]] =
      Except.ok (initPoll 7 100 42 [1, 2, 3] [[10], [20, 21]]) := rfl
  have hf := claim6_create_poll_fields 7 100 42 [1, 2, 3] [[10], [20, 21]]
    (initPoll 7 100 42 [1, 2, 3] [[10], [20, 21]]) heq
  exact ⟨_, heq, hf.1, hf.2.1, hf.2.2.1, hf.2.2.2.1, hf.2.2.2.2.1,
    hf.2.2.2.2.2.1 1 (by decide), hf.2.2.2.2.2.2 0⟩

/-- C7: every poll produced by `create_poll` satisfies the data-model
invariant (2 to 4 options, question at most 200 bytes, each populated option
length at most 30), and a successful `cast_vote` preserves it. -/
theorem claim7_poll_invariant :
    (∀ creator now poll_id question options p,
      create_poll creator now poll_id question options = Except.ok p → PollInv p) ∧
    (∀ poll vr pollKey voterKey now option_index p r ev, PollInv poll →
      cast_vote poll vr pollKey voterKey now option_index = Except.ok (p, r, ev) →
      PollInv p) := by
  constructor
  · intro creator now poll_id question options p h
    obtain ⟨h₁, h₂, h₃, h₄, hp⟩ := create_poll_ok_inv h
    subst hp
    refine ⟨h₂, h₃, h₁, ?_⟩
    intro i hi
    have hi' : i < options.length := hi
    have hi4 : i < MAX_OPTIONS := lt_of_lt_of_le hi' h₃
    have hval : (initPoll creator now poll_id question options).option_lengths.getD i 0 =
        (options.getD i []).length := by
      simp [initPoll, List.getD, List.getElem?_map, List.getElem?_range hi4, hi']
    rw [hval, List.getD_eq_getElem options [] hi']
    exact h₄ _ (List.getElem_mem hi')
  · intro poll vr pollKey voterKey now option_index p r ev hinv h
    obtain ⟨hidx, hnv, hpeq, hreq, heveq⟩ := cast_vote_ok_inv h
    subst hpeq
    exact hinv

/-- Witness for C7: the invariant holds for a concretely created poll and is
preserved by a concrete vote on it. -/
theorem claim7_poll_invariant_witness :
    PollInv (initPoll 7 100 42 [1, 2, 3] [[10], [20, 21]]) := by
  exact claim7_poll_invariant.1 7 100 42 [1, 2, 3] [[10], [20, 21]] _ rfl

theorem filterMap_eq_map_of_some {α β : Type} {f : α → Option β} {g : α → β}
    (l : List α) (h : ∀ a ∈ l, f a = some (g a)) : l.filterMap f = l.map g := by
  induction l with
  | nil => rfl
  | cons x xs ih =>
    rw [List.filterMap_cons, h x (List.mem_cons_self x xs), List.map_cons,
      ih (fun a ha => h a (List.mem_cons_of_mem x ha))]

/-- C10: `get_option` returns `none` exactly for an index at or past
`option_count` and otherwise decodes the slot; hence `get_all_options`
returns exactly `option_count` decoded options, in slot order. -/
theorem claim10_get_option_none_iff (p : Poll) :
    (∀ i, (p.get_option i = none ↔ p.option_count ≤ i)) ∧
    (∀ i, i < p.option_count → p.get_option i =
      some ((p.options.getD i []).take (p.option_lengths.getD i 0))) ∧
    p.get_all_options.length = p.option_count ∧
    (∀ j, j < p.option_count → p.get_all_options.getD j [] =
      (p.options.getD j []).take (p.option_lengths.getD j 0)) := by
  have hsome : ∀ i, i < p.option_count → p.get_option i =
      some ((p.options.getD i []).take (p.option_lengths.getD i 0)) := by
    intro i hi
    simp [Poll.get_option, Nat.not_le.mpr hi]
  have hmap : p.get_all_options = (List.range p.option_count).map
      (fun i => (p.options.getD i []).take (p.option_lengths.getD i 0)) := by
    unfold Poll.get_all_options
    exact filterMap_eq_map_of_some _ (fun a ha => hsome a (List.mem_range.mp ha))
  refine ⟨?_, hsome, ?_, ?_⟩
  · intro i
    constructor
    · intro h
      by_contra hlt
      rw [hsome i (Nat.not_le.mp hlt)] at h
      cases h
    · intro h
      simp [Poll.get_option, h]
  · rw [hmap]
    simp
  · intro j hj
    rw [hmap]
    simp [List.getD, List.getElem?_map, List.getElem?_range hj]

/-- Witness for C10 at a concrete poll. -/
theorem claim10_get_option_none_iff_witness :
    (∀ i, ((initPoll 7 100 42 [1, 2, 3] [[10], [20, 21]]).get_option i = none ↔
      (initPoll 7 100 42 [1, 2, 3] [[10], [20, 21]]).option_count ≤ i)) ∧
    (∀ i, i < (initPoll 7 100 42 [1, 2, 3] [[10], [20, 21]]).option_count →
      (initPoll 7 100 42 [1, 2, 3] [[10], [20, 21]]).get_option i =
        some (((initPoll 7 100 42 [1, 2, 3] [[10], [20, 21]]).options.getD i []).take
          ((initPoll 7 100 42 [1, 2, 3] [[10], [20, 21]]).option_lengths.getD i 0))) ∧
    (initPoll 7 100 42 [1, 2, 3] [[10], [20, 21]]).get_all_options.length =
      (initPoll 7 100 42 [1, 2, 3] [[10], [20, 21]]).option_count ∧
    (∀ j, j < (initPoll 7 100 42 [1, 2, 3] [[10], [20, 21]]).option_count →
      (initPoll 7 100 42 [1, 2, 3] [[10], [20, 21]]).get_all_options.getD j [] =
        (((initPoll 7 100 42 [1, 2, 3] [[10], [20, 21]]).options.getD j []).take
          ((initPoll 7 100 42 [1, 2, 3] [[10], [20, 21]]).option_lengths.getD j 0))) :=
  claim10_get_option_none_iff (initPoll 7 100 42 [1, 2, 3] [[10], [20, 21]])

/-- A concrete poll used by the closed witnesses below. -/
def demoPoll : Poll := initPoll 7 100 42 [1, 2, 3] [[10], [20, 21]]

/-- A concrete voted record used by the closed witnesses below. -/
def demoRecord : VoterRecord :=
  { has_voted := true, voted_option := 0, voted_at := 200, voter := 9, poll := 5 }

/-- C4: a successful `cast_vote` increments exactly the chosen tally by one
(no `u64` wrap at the witnessed value), leaves every other tally and every
other `Poll` field unchanged, fills the `VoterRecord` as documented and emits
the `VoteCast` event carrying `(poll, voter, option_index, timestamp)`. -/
theorem claim4_cast_vote_effect (poll p : Poll) (vr r : VoterRecord) (ev : VoteCast)
    (pollKey voterKey option_index : Nat) (now : Int)
    (hlen : poll.votes.length = MAX_OPTIONS)
    (hcnt : poll.option_count ≤ MAX_OPTIONS)
    (hof : poll.votes.getD option_index 0 + 1 < U64_MOD)
    (h : cast_vote poll vr pollKey voterKey now option_index = Except.ok (p, r, ev)) :
    p.votes.getD option_index 0 = poll.votes.getD option_index 0 + 1 ∧
    (∀ j, j ≠ option_index → p.votes.getD j 0 = poll.votes.getD j 0) ∧
    p.poll_id = poll.poll_id ∧ p.creator = poll.creator ∧
    p.question = poll.question ∧ p.question_length = poll.question_length ∧
    p.options = poll.options ∧ p.option_lengths = poll.option_lengths ∧
    p.option_count = poll.option_count ∧ p.created_at = poll.created_at ∧
    r.has_voted = true ∧ r.voted_option = option_index ∧ r.voted_at = now ∧
    r.voter = voterKey ∧ r.poll = pollKey ∧
    ev.poll = pollKey ∧ ev.voter = voterKey ∧ ev.option_index = option_index ∧
    ev.timestamp = now := by
  obtain ⟨hidx, hnv, hpeq, hreq, heveq⟩ := cast_vote_ok_inv h
  subst hpeq
  subst hreq
  subst heveq
  have hik : option_index < poll.votes.length := by
    rw [hlen]
    exact lt_of_lt_of_le hidx hcnt
  refine ⟨?_, ?_, rfl, rfl, rfl, rfl, rfl, rfl, rfl, rfl, rfl, rfl, rfl, rfl, rfl, rfl,
    rfl, rfl, rfl⟩
  · show (poll.votes.set option_index _).getD option_index 0 = _
    rw [Nat.mod_eq_of_lt hof]
    simp [List.getD, List.getElem?_set_self hik]
  · intro j hj
    show (poll.votes.set option_index _).getD j 0 = _
    simp [List.getD, List.getElem?_set_ne (Ne.symm hj)]

/-- Witness for C4: a concrete vote on a freshly created poll. -/
theorem claim4_cast_vote_effect_witness :
    ∃ p r ev, cast_vote demoPoll VoterRecord.zeroed 5 9 200 0 = Except.ok (p, r, ev) ∧
      p.votes.getD 0 0 = demoPoll.votes.getD 0 0 + 1 ∧
      (∀ j, j ≠ 0 → p.votes.getD j 0 = demoPoll.votes.getD j 0) ∧
      p.question = demoPoll.question ∧ r.has_voted = true ∧ r.voted_option = 0 ∧
      ev.poll = 5 ∧ ev.voter = 9 ∧ ev.option_index = 0 ∧ ev.timestamp = 200 := by
  obtain ⟨p, r, ev, heq⟩ :
      ∃ p r ev, cast_vote demoPoll VoterRecord.zeroed 5 9 200 0 = Except.ok (p, r, ev) :=
    ⟨_, _, _, rfl⟩
  obtain ⟨h1, h2, _, _, h5, _, _, _, _, _, h11, h12, _, _, _, h16, h17, h18, h19⟩ :=
    claim4_cast_vote_effect demoPoll p VoterRecord.zeroed r ev 5 9 0 200
      (by decide) (by decide) (by decide) heq
  exact ⟨p, r, ev, heq, h1, h2, h5, h11, h12, h16, h17, h18, h19⟩

/-- C5: for an existing poll and any option index at or past `option_count`,
`cast_vote` fails with InvalidOption — both at the transaction level (no state
is produced) and for the handler on any voter record. -/
theorem claim5_invalid_option (c : Chain) (pollKey voterKey option_index : Nat)
    (now : Int) (poll : Poll)
    (hp : alookup c.polls pollKey = some poll)
    (hidx : poll.option_count ≤ option_index) :
    castVoteSys c pollKey voterKey now option_index =
      Except.error (TxError.programError VotingError.InvalidOption) ∧
    ∀ vr pk vk now₂, cast_vote poll vr pk vk now₂ option_index =
      Except.error VotingError.InvalidOption := by
  constructor
  · simp [castVoteSys, hp, cast_vote_invalid hidx]
  · intro vr pk vk now₂
    exact cast_vote_invalid hidx

/-- Witness for C5: voting for option index 2 on a concrete 2-option poll. -/
theorem claim5_invalid_option_witness :
    castVoteSys { polls := [(5, demoPoll)], voterRecords := [], events := [] } 5 9 200 2 =
      Except.error (TxError.programError VotingError.InvalidOption) ∧
    ∀ vr pk vk now₂, cast_vote demoPoll vr pk vk now₂ 2 =
      Except.error VotingError.InvalidOption :=
  claim5_invalid_option { polls := [(5, demoPoll)], voterRecords := [], events := [] }
    5 9 2 200 demoPoll rfl (by decide)

/-- C8: the per-(poll, voter) state machine is terminal: once the stored
voter record is marked voted, no successful transaction of either kind ever
changes that record, and every later `cast_vote` by the same (poll, voter)
pair fails. -/
theorem claim8_voted_terminal (c : Chain) (pollKey voterKey : Nat) (r : VoterRecord)
    (hr : alookup c.voterRecords (pollKey, voterKey) = some r)
    (hv : r.has_voted = true) :
    (∀ c₂, Step c c₂ → alookup c₂.voterRecords (pollKey, voterKey) = some r) ∧
    (∀ now option_index, ∃ e,
      castVoteSys c pollKey voterKey now option_index = Except.error e) := by
  constructor
  · rintro c₂ (⟨creator, now, poll_id, question, options, hstep⟩ |
      ⟨pk, vk, now, idx, hstep⟩)
    · obtain ⟨hfresh, p, hcp, hc₂⟩ := createPollSys_ok_inv hstep
      subst hc₂
      exact hr
    · obtain ⟨poll, p, r₂, ev, hp, hc, hc₂⟩ := castVoteSys_ok_inv hstep
      subst hc₂
      by_cases hk : (pk, vk) = (pollKey, voterKey)
      · rw [hk] at hc
        obtain ⟨_, hnv, _, _, _⟩ := cast_vote_ok_inv hc
        rw [hr] at hnv
        simp [hv] at hnv
      · show alookup (aset c.voterRecords (pk, vk) r₂) (pollKey, voterKey) = some r
        rw [alookup_aset_ne _ _ hk]
        exact hr
  · intro now idx
    cases hp : alookup c.polls pollKey with
    | none => exact ⟨TxError.accountNotFound, by simp [castVoteSys, hp]⟩
    | some poll =>
      have hvr : ((alookup c.voterRecords (pollKey, voterKey)).getD VoterRecord.zeroed) =
          r := by
        rw [hr]
        rfl
      by_cases hidx : idx < poll.option_count
      · exact ⟨TxError.programError VotingError.AlreadyVoted,
          by simp [castVoteSys, hp, hvr, cast_vote_already hidx hv]⟩
      · exact ⟨TxError.programError VotingError.InvalidOption,
          by simp [castVoteSys, hp, cast_vote_invalid (Nat.not_lt.mp hidx)]⟩

/-- A concrete chain holding the demo poll and its voted record. -/
def demoChainVoted : Chain :=
  { polls := [(5, demoPoll)], voterRecords := [((5, 9), demoRecord)], events := [] }

/-- Witness for C8 at a concrete chain holding a voted record. -/
theorem claim8_voted_terminal_witness :
    (∀ c₂, Step demoChainVoted c₂ →
      alookup c₂.voterRecords (5, 9) = some demoRecord) ∧
    (∀ now option_index, ∃ e,
      castVoteSys demoChainVoted 5 9 now option_index = Except.error e) :=
  claim8_voted_terminal demoChainVoted 5 9 demoRecord rfl rfl

/-- C1: on any reachable chain, after creating a poll, a first `cast_vote` by
a voter succeeds and raises the chosen tally from 0 to 1, and a second
`cast_vote` by the same voter on the same poll (any valid option) fails with
AlreadyVoted producing no state; moreover the voter-record key is a pure
function of `(poll, voter)`, so at most one voter record exists per
`(poll, voter)` key on every reachable chain. -/
theorem claim1_single_vote_per_voter (c c₁ : Chain)
    (creator poll_id voter idx₁ idx₂ : Nat) (now₁ now₂ now₃ : Int)
    (question : List Nat) (options : List (List Nat))
    (hre : Reachable c)
    (hcp : createPollSys c creator now₁ poll_id question options = Except.ok c₁)
    (h₁ : idx₁ < options.length) (h₂ : idx₂ < options.length) :
    (∃ c₂ p₁ p₂,
      alookup c₁.polls (derivePollKey creator poll_id) = some p₁ ∧
      p₁.votes.getD idx₁ 0 = 0 ∧
      castVoteSys c₁ (derivePollKey creator poll_id) voter now₂ idx₁ = Except.ok c₂ ∧
      alookup c₂.polls (derivePollKey creator poll_id) = some p₂ ∧
      p₂.votes.getD idx₁ 0 = 1 ∧
      castVoteSys c₂ (derivePollKey creator poll_id) voter now₃ idx₂ =
        Except.error (TxError.programError VotingError.AlreadyVoted)) ∧
    (∀ d, Reachable d → ∀ k, countKey d.voterRecords k ≤ 1) := by
  obtain ⟨hfresh, P, hcpo, hc₁⟩ := createPollSys_ok_inv hcp
  obtain ⟨hq, hlo, hhi, holen, hPeq⟩ := create_poll_ok_inv hcpo
  subst hPeq
  subst hc₁
  have hinv := reachable_chainInv hre
  refine ⟨?_, fun d hd k => countKey_le_one (reachable_chainInv hd).2.1 k⟩
  set key := derivePollKey creator poll_id with hkey
  set Q := initPoll creator now₁ poll_id question options with hQ
  have hp₁ : alookup (aset c.polls key Q) key = some Q := alookup_aset_self _ _ _
  have hvr₀ : alookup c.voterRecords (key, voter) = none :=
    voterRecord_none_of_poll_none hinv hfresh
  have hidxQ : idx₁ < Q.option_count := by
    rw [hQ]
    exact h₁
  set P2 := { Q with
    votes := Q.votes.set idx₁ ((Q.votes.getD idx₁ 0 + 1) % U64_MOD) } with hP2
  set VR2 := ({ has_voted := true
                voted_option := idx₁
                voted_at := now₂
                voter := voter
                poll := key } : VoterRecord) with hVR2
  set EV2 := ({ poll := key
                voter := voter
                option_index := idx₁
                timestamp := now₂ } : VoteCast) with hEV2
  have hcv1 : cast_vote Q VoterRecord.zeroed key voter now₂ idx₁ =
      Except.ok (P2, VR2, EV2) := by
    unfold cast_vote
    rw [if_pos hidxQ]
    rfl
  have tally0 : Q.votes.getD idx₁ 0 = 0 := by
    rw [hQ]
    exact getD_replicate_zero MAX_OPTIONS idx₁
  have hik : idx₁ < Q.votes.length := by
    rw [hQ]
    show idx₁ < (List.replicate MAX_OPTIONS 0).length
    rw [List.length_replicate]
    exact lt_of_lt_of_le h₁ hhi
  have tally1 : P2.votes.getD idx₁ 0 = 1 := by
    rw [hP2]
    show (Q.votes.set idx₁ ((Q.votes.getD idx₁ 0 + 1) % U64_MOD)).getD idx₁ 0 = 1
    rw [tally0, show (0 + 1) % U64_MOD = 1 from Nat.mod_eq_of_lt (by norm_num [U64_MOD])]
    simp [List.getD, List.getElem?_set_self, hik]
  have hstep1 : castVoteSys
      { polls := aset c.polls key Q, voterRecords := c.voterRecords, events := c.events }
      key voter now₂ idx₁ =
      Except.ok { polls := aset (aset c.polls key Q) key P2
                  voterRecords := aset c.voterRecords (key, voter) VR2
                  events := c.events ++ [EV2] } := by
    simp only [castVoteSys, hp₁, hvr₀, Option.getD_none, hcv1]
  have hp₂ : alookup (aset (aset c.polls key Q) key P2) key = some P2 :=
    alookup_aset_self _ _ _
  have hvr₂ : alookup (aset c.voterRecords (key, voter) VR2) (key, voter) = some VR2 :=
    alookup_aset_self _ _ _
  have hidx₂Q : idx₂ < P2.option_count := by
    rw [hP2]
    show idx₂ < Q.option_count
    rw [hQ]
    exact h₂
  have hvoted2 : VR2.has_voted = true := by
    rw [hVR2]
  have hstep2 : castVoteSys
      { polls := aset (aset c.polls key Q) key P2
        voterRecords := aset c.voterRecords (key, voter) VR2
        events := c.events ++ [EV2] } key voter now₃ idx₂ =
      Except.error (TxError.programError VotingError.AlreadyVoted) := by
    simp only [castVoteSys, hp₂, hvr₂, Option.getD_some,
      cast_vote_already hidx₂Q hvoted2]
  exact ⟨_, Q, P2, hp₁, tally0, hstep1, hp₂, tally1, hstep2⟩

/-- The chain after creating the demo poll on the empty chain. -/
def demoChainCreated : Chain :=
  { polls := [(derivePollKey 7 42, demoPoll)], voterRecords := [], events := [] }

/-- Witness for C1: genesis chain, one created poll, voter 9 votes option 0
and then tries option 1. -/
theorem claim1_single_vote_per_voter_witness :
    (∃ c₂ p₁ p₂,
      alookup demoChainCreated.polls (derivePollKey 7 42) = some p₁ ∧
      p₁.votes.getD 0 0 = 0 ∧
      castVoteSys demoChainCreated (derivePollKey 7 42) 9 200 0 = Except.ok c₂ ∧
      alookup c₂.polls (derivePollKey 7 42) = some p₂ ∧
      p₂.votes.getD 0 0 = 1 ∧
      castVoteSys c₂ (derivePollKey 7 42) 9 300 1 =
        Except.error (TxError.programError VotingError.AlreadyVoted)) ∧
    (∀ d, Reachable d → ∀ k, countKey d.voterRecords k ≤ 1) :=
  claim1_single_vote_per_voter Chain.empty demoChainCreated 7 42 9 0 1 100 200 300
    [1, 2, 3] [[10], [20, 21]] Reachable.init rfl (by decide) (by decide)

end Voting
